import Mathlib

/-!
Shallow embedding of the `lm3549` LED-driver crate (src/lib.rs, src/registers.rs).

Bytes (`u8`) and 16-bit values (`u16`) are modelled as `Nat`; every bit
operation the source performs keeps results below 2^8 when inputs are, and the
one place overflow semantics could matter (masking in `write_bank`) uses the
same `&&&` / `>>>` masks as the source.  The i2c transport of `embedded-hal`
is modelled as a record of two state-passing primitives returning
`Except ε` (Rust `Result<_, E>`).
-/

namespace LM3549Spec

/-- Embeds `Register` of src/registers.rs: the register address map.  The Rust
`register as u8` cast is `Register.addr`, returning the declared discriminant. -/
inductive Register where
  | BankSel | Ir0Lsb | Ir0Msb | Ig0Lsb | Ig0Msb | Ib0Lsb | Ib0Msb
  | Ir1Lsb | Ir1Msb | Ig1Lsb | Ig1Msb | Ib1Lsb | Ib1Msb
  | Ir2Lsb | Ir2Msb | Ig2Lsb | Ig2Msb | Ib2Lsb | Ib2Msb
  | Fader | Ctrl | Ilimit | FaultMask | Fault | User1 | User2 | EepromCtrl
deriving DecidableEq

/-- Declared discriminants of `Register` (the `= 0x00`, … in the source). -/
def Register.addr : Register → Nat
  | .BankSel => 0x00
  | .Ir0Lsb => 0x01
  | .Ir0Msb => 0x02
  | .Ig0Lsb => 0x03
  | .Ig0Msb => 0x04
  | .Ib0Lsb => 0x05
  | .Ib0Msb => 0x06
  | .Ir1Lsb => 0x07
  | .Ir1Msb => 0x08
  | .Ig1Lsb => 0x09
  | .Ig1Msb => 0x0A
  | .Ib1Lsb => 0x0B
  | .Ib1Msb => 0x0C
  | .Ir2Lsb => 0x0D
  | .Ir2Msb => 0x0E
  | .Ig2Lsb => 0x0F
  | .Ig2Msb => 0x10
  | .Ib2Lsb => 0x11
  | .Ib2Msb => 0x12
  | .Fader => 0x13
  | .Ctrl => 0x14
  | .Ilimit => 0x15
  | .FaultMask => 0x16
  | .Fault => 0x17
  | .User1 => 0x19
  | .User2 => 0x1A
  | .EepromCtrl => 0x40

/-- Embeds `Bank`: selects bank of current settings. -/
inductive Bank where
  | B0 | B1 | B2
deriving DecidableEq

/-- The Rust `bank as u8` cast: declared discriminants 0x01, 0x07, 0x0D
(the base register address of each bank's red-LSB register). -/
def Bank.toU8 : Bank → Nat
  | .B0 => 0x01
  | .B1 => 0x07
  | .B2 => 0x0D

/-- Embeds `PosLimit`: buck-boost converter positive current limit. -/
inductive PosLimit where
  | MA500 | MA1000 | MA1500 | MA2000
deriving DecidableEq, Fintype

/-- `impl From<PosLimit> for u8` (`p as u8`, declared discriminants 0..3). -/
def PosLimit.toU8 : PosLimit → Nat
  | .MA500 => 0
  | .MA1000 => 1
  | .MA1500 => 2
  | .MA2000 => 3

/-- `impl From<u8> for PosLimit`: codes 0,1,2 named, catch-all `_ => MA2000`. -/
def PosLimit.fromU8 : Nat → PosLimit
  | 0 => .MA500
  | 1 => .MA1000
  | 2 => .MA1500
  | _ => .MA2000

/-- Embeds `NegLimit`: buck-boost converter negative current limit. -/
inductive NegLimit where
  | MA550 | MA1100 | MA1650 | MA2200
deriving DecidableEq, Fintype

/-- `impl From<NegLimit> for u8` (`n as u8`). -/
def NegLimit.toU8 : NegLimit → Nat
  | .MA550 => 0
  | .MA1100 => 1
  | .MA1650 => 2
  | .MA2200 => 3

/-- `impl From<u8> for NegLimit`: codes 0,1,2 named, catch-all `_ => MA2200`. -/
def NegLimit.fromU8 : Nat → NegLimit
  | 0 => .MA550
  | 1 => .MA1100
  | 2 => .MA1650
  | _ => .MA2200

/-- Embeds `OpenShort`: source of open/short fault. -/
inductive OpenShort where
  | None | Red | Green | Blue
deriving DecidableEq, Fintype

/-- Declared discriminants of `OpenShort` (None=0 .. Blue=3). -/
def OpenShort.disc : OpenShort → Nat
  | .None => 0
  | .Red => 1
  | .Green => 2
  | .Blue => 3

/-- `impl From<u8> for OpenShort`: codes 1,2,3 named, catch-all `_ => None`. -/
def OpenShort.fromU8 : Nat → OpenShort
  | 1 => .Red
  | 2 => .Green
  | 3 => .Blue
  | _ => .None

/-- Embeds `Timeout`: active-mode timeout after enable pins go low. -/
inductive Timeout where
  | MS125 | MS250 | MS500 | MS1000
deriving DecidableEq, Fintype

/-- `impl From<u8> for Timeout`: codes 0,1,2 named, catch-all `_ => MS1000`. -/
def Timeout.fromU8 : Nat → Timeout
  | 0 => .MS125
  | 1 => .MS250
  | 2 => .MS500
  | _ => .MS1000

/-- `impl From<Timeout> for u8` (`t as u8`). -/
def Timeout.toU8 : Timeout → Nat
  | .MS125 => 0
  | .MS250 => 1
  | .MS500 => 2
  | .MS1000 => 3

/-- Embeds `SoftStart`: soft start time selection. -/
inductive SoftStart where
  | None | MS500 | MS1000 | MS2000
deriving DecidableEq, Fintype

/-- `impl From<u8> for SoftStart`: codes 0,1,2 named, catch-all `_ => MS2000`. -/
def SoftStart.fromU8 : Nat → SoftStart
  | 0 => .None
  | 1 => .MS500
  | 2 => .MS1000
  | _ => .MS2000

/-- `impl From<SoftStart> for u8` (`s as u8`). -/
def SoftStart.toU8 : SoftStart → Nat
  | .None => 0
  | .MS500 => 1
  | .MS1000 => 2
  | .MS2000 => 3

/-!
The `bitfield!` macro of the `bitfield` crate, specialised to a `u8` carrier.
A multi-bit getter for range `msb,lsb` is `(raw >> lsb) & ((1 << width) - 1)`;
the setter is `raw = (raw & !(mask << lsb)) | ((value & mask) << lsb)` where
the `u8` complement `!m` is `0xFF ^ m`.  A single-bit getter is
`(raw >> i) & 1 == 1`; the setter sets or clears bit `i`.
-/

/-- Multi-bit field extraction generated by `bitfield!` (u8 carrier). -/
def bitfieldGet (raw lsb msb : Nat) : Nat :=
  (raw >>> lsb) &&& ((1 <<< (msb - lsb + 1)) - 1)

/-- Multi-bit field update generated by `bitfield!` (u8 carrier). -/
def bitfieldSet (raw lsb msb v : Nat) : Nat :=
  (raw &&& (0xFF ^^^ (((1 <<< (msb - lsb + 1)) - 1) <<< lsb))) |||
    ((v &&& ((1 <<< (msb - lsb + 1)) - 1)) <<< lsb)

/-- Single-bit getter generated by `bitfield!`. -/
def bitGet (raw i : Nat) : Bool :=
  (raw >>> i) &&& 1 == 1

/-- Single-bit setter generated by `bitfield!` (u8 carrier). -/
def bitSet (raw i : Nat) (b : Bool) : Nat :=
  if b then raw ||| (1 <<< i) else raw &&& (0xFF ^^^ (1 <<< i))

/-- Embeds `Ilimit(u8)`: the current limit register (tuple struct wrapping the
raw byte). -/
structure Ilimit where
  raw : Nat
deriving DecidableEq

/-- `Ilimit` getter `softstart` (source name): positive limit, bits 5..4,
converted through `From<u8> for PosLimit`. -/
def Ilimit.softstart (x : Ilimit) : PosLimit :=
  PosLimit.fromU8 (bitfieldGet x.raw 4 5)

/-- `Ilimit` setter `set_softstart`: positive limit into bits 5..4. -/
def Ilimit.set_softstart (x : Ilimit) (v : PosLimit) : Ilimit :=
  ⟨bitfieldSet x.raw 4 5 v.toU8⟩

/-- `Ilimit` getter `timeout` (source name): negative limit, bits 1..0,
converted through `From<u8> for NegLimit`. -/
def Ilimit.timeout (x : Ilimit) : NegLimit :=
  NegLimit.fromU8 (bitfieldGet x.raw 0 1)

/-- `Ilimit` setter `set_timeout`: negative limit into bits 1..0. -/
def Ilimit.set_timeout (x : Ilimit) (v : NegLimit) : Ilimit :=
  ⟨bitfieldSet x.raw 0 1 v.toU8⟩

/-- `impl Default for Ilimit`: raw byte 0x11. -/
def Ilimit.default : Ilimit := ⟨0x11⟩

/-- Embeds `Ctrl(u8)`: the control register. -/
structure Ctrl where
  raw : Nat
deriving DecidableEq

/-- `Ctrl` getter `softstart`: soft start control, bits 5..4. -/
def Ctrl.softstart (c : Ctrl) : SoftStart :=
  SoftStart.fromU8 (bitfieldGet c.raw 4 5)

/-- `Ctrl` setter `set_softstart`. -/
def Ctrl.set_softstart (c : Ctrl) (v : SoftStart) : Ctrl :=
  ⟨bitfieldSet c.raw 4 5 v.toU8⟩

/-- `Ctrl` getter `timeout`: timeout control, bits 3..2. -/
def Ctrl.timeout (c : Ctrl) : Timeout :=
  Timeout.fromU8 (bitfieldGet c.raw 2 3)

/-- `Ctrl` setter `set_timeout`. -/
def Ctrl.set_timeout (c : Ctrl) (v : Timeout) : Ctrl :=
  ⟨bitfieldSet c.raw 2 3 v.toU8⟩

/-- `Ctrl` getter `mfe`: fader enable, bit 1. -/
def Ctrl.mfe (c : Ctrl) : Bool := bitGet c.raw 1

/-- `Ctrl` setter `set_mfe`. -/
def Ctrl.set_mfe (c : Ctrl) (b : Bool) : Ctrl := ⟨bitSet c.raw 1 b⟩

/-- `Ctrl` getter `pwm`: PWM fade enable, bit 0. -/
def Ctrl.pwm (c : Ctrl) : Bool := bitGet c.raw 0

/-- `Ctrl` setter `set_pwm`. -/
def Ctrl.set_pwm (c : Ctrl) (b : Bool) : Ctrl := ⟨bitSet c.raw 0 b⟩

/-- `impl Default for Ctrl`: raw byte 0x00. -/
def Ctrl.default : Ctrl := ⟨0x00⟩

/-- Embeds `Fault(u8)`: the fault register. -/
structure Fault where
  raw : Nat
deriving DecidableEq

/-- `Fault` getter `short`: shorted drivers, bits 6..5. -/
def Fault.short (f : Fault) : OpenShort :=
  OpenShort.fromU8 (bitfieldGet f.raw 5 6)

/-- `Fault` getter `open` (source name; `open` is a Lean keyword): open
drivers, bits 4..3. -/
def Fault.open_ (f : Fault) : OpenShort :=
  OpenShort.fromU8 (bitfieldGet f.raw 3 4)

/-- `Fault` getter `uvlo`: under voltage lock-out, bit 2. -/
def Fault.uvlo (f : Fault) : Bool := bitGet f.raw 2

/-- `Fault` getter `tsd`: temperature shutdown, bit 1. -/
def Fault.tsd (f : Fault) : Bool := bitGet f.raw 1

/-- `Fault` getter `ocp`: overcurrent, bit 0. -/
def Fault.ocp (f : Fault) : Bool := bitGet f.raw 0

/-- `Fault::is_err` exactly as written in the source: `self.0 == 0x00`.
(Its doc comment says "One or more fault flags are active".) -/
def Fault.is_err (f : Fault) : Bool := f.raw == 0x00

/-- `Fault::is_ok` exactly as written in the source: `!self.is_err()`.
(Its doc comment says "No flags are active".) -/
def Fault.is_ok (f : Fault) : Bool := !f.is_err

/-- Embeds `FaultMask(u8)`. -/
structure FaultMask where
  raw : Nat
deriving DecidableEq

/-- `FaultMask` getter `short`, bit 4. -/
def FaultMask.short (m : FaultMask) : Bool := bitGet m.raw 4

/-- `FaultMask` getter `open` (source name; Lean keyword), bit 3. -/
def FaultMask.open_ (m : FaultMask) : Bool := bitGet m.raw 3

/-- `FaultMask` getter `uvlo`, bit 2. -/
def FaultMask.uvlo (m : FaultMask) : Bool := bitGet m.raw 2

/-- `FaultMask` getter `tsd`, bit 1. -/
def FaultMask.tsd (m : FaultMask) : Bool := bitGet m.raw 1

/-- `FaultMask` getter `ocp`, bit 0. -/
def FaultMask.ocp (m : FaultMask) : Bool := bitGet m.raw 0

/-- `impl Default for FaultMask`: raw byte 0x00. -/
def FaultMask.default : FaultMask := ⟨0x00⟩

/-!
The driver itself (src/lib.rs).  The `embedded-hal` blocking i2c traits
`i2c::Write` / `i2c::Read` are modelled as a record of two state-passing
primitives over an abstract transport state `σ` and error type `ε`: each
primitive is one framed bus transaction and either succeeds or fails with a
transport error.  `read s addr n` models filling an `n`-byte buffer.
-/

/-- Abstract i2c transport: the two `embedded-hal` primitives the driver uses. -/
structure I2CBus (σ ε : Type) where
  write : σ → Nat → List Nat → σ × Except ε Unit
  read : σ → Nat → Nat → σ × Except ε (List Nat)

/-- Embeds `LM3549<I2C>`: owns the transport and a fixed device address. -/
structure LM3549 (σ ε : Type) where
  i2c : I2CBus σ ε
  address : Nat

/-- `LM3549_ADDR`: the default device address. -/
def LM3549_ADDR : Nat := 0x36

/-- `LM3549::new`: construct with the default address. -/
def LM3549.new (bus : I2CBus σ ε) : LM3549 σ ε :=
  { i2c := bus, address := LM3549_ADDR }

/-- `LM3549::read`: write the one-byte register address, then read one byte,
each stage propagating the transport error with `?`.  The Rust buffer starts
as `[0x00]` and `buf[0]` is returned, hence `headD 0` on the bytes read. -/
def LM3549.read (d : LM3549 σ ε) (register : Register) (s : σ) :
    σ × Except ε Nat :=
  match d.i2c.write s d.address [register.addr] with
  | (s₁, .error e) => (s₁, .error e)
  | (s₁, .ok _) =>
    match d.i2c.read s₁ d.address 1 with
    | (s₂, .error e) => (s₂, .error e)
    | (s₂, .ok buf) => (s₂, .ok (buf.headD 0))

/-- `LM3549::get_fault`: `read(Register::Fault)` then wrap in `Fault`. -/
def LM3549.get_fault (d : LM3549 σ ε) (s : σ) : σ × Except ε Fault :=
  match d.read Register.Fault s with
  | (s₁, .error e) => (s₁, .error e)
  | (s₁, .ok x) => (s₁, .ok ⟨x⟩)

/-- `LM3549::write`: one two-byte transaction `[register address, value]`. -/
def LM3549.write (d : LM3549 σ ε) (register : Register) (value : Nat)
    (s : σ) : σ × Except ε Unit :=
  d.i2c.write s d.address [register.addr, value]

/-- `LM3549::write_bank`: one seven-byte transaction starting at the bank's
base address, each channel as low byte then 2-bit high byte. -/
def LM3549.write_bank (d : LM3549 σ ε) (bank : Bank) (r g b : Nat)
    (s : σ) : σ × Except ε Unit :=
  d.i2c.write s d.address
    [bank.toU8,
     r &&& 0xFF, (r >>> 8) &&& 0x03,
     g &&& 0xFF, (g >>> 8) &&& 0x03,
     b &&& 0xFF, (b >>> 8) &&& 0x03]

/-- `LM3549::select_bank`: maps the bank to 0 / 1 / 2 and writes it to the
`BankSel` register. -/
def LM3549.select_bank (d : LM3549 σ ε) (bank : Bank) (s : σ) :
    σ × Except ε Unit :=
  let sel : Nat :=
    match bank with
    | .B0 => 0
    | .B1 => 1
    | .B2 => 2
  d.write Register.BankSel sel s

/-- `LM3549::set_fader`. -/
def LM3549.set_fader (d : LM3549 σ ε) (fade : Nat) (s : σ) :
    σ × Except ε Unit :=
  d.write Register.Fader fade s

/-- `LM3549::set_ctrl`. -/
def LM3549.set_ctrl (d : LM3549 σ ε) (ctrl : Ctrl) (s : σ) :
    σ × Except ε Unit :=
  d.write Register.Ctrl ctrl.raw s

/-- `LM3549::set_ilimit`. -/
def LM3549.set_ilimit (d : LM3549 σ ε) (limit : Ilimit) (s : σ) :
    σ × Except ε Unit :=
  d.write Register.Ilimit limit.raw s

/-- `LM3549::set_fault_mask`. -/
def LM3549.set_fault_mask (d : LM3549 σ ε) (mask : FaultMask) (s : σ) :
    σ × Except ε Unit :=
  d.write Register.FaultMask mask.raw s

/-!  Concrete transports used to observe the driver's wire behaviour.  -/

/-- One framed bus transaction: a write of a byte sequence to a device
address, or a read of a given length from a device address. -/
inductive Tx where
  | wr : Nat → List Nat → Tx
  | rd : Nat → Nat → Tx
deriving DecidableEq

/-- A transport that logs every transaction and always succeeds; reads return
`n` copies of the byte `v`. -/
def traceBus (ε : Type) (v : Nat) : I2CBus (List Tx) ε where
  write s a bs := (s ++ [Tx.wr a bs], Except.ok ())
  read s a n := (s ++ [Tx.rd a n], Except.ok (List.replicate n v))

/-- A transport whose every primitive fails with the fixed error `e`. -/
def failBus (e : Nat) : I2CBus Unit Nat where
  write s _ _ := (s, Except.error e)
  read s _ _ := (s, Except.error e)

/-- A transport whose writes succeed (and are logged) but whose reads fail
with the fixed error `e`. -/
def readFailBus (e : Nat) : I2CBus (List Tx) Nat where
  write s a bs := (s ++ [Tx.wr a bs], Except.ok ())
  read s a n := (s ++ [Tx.rd a n], Except.error e)

/-!
Struct-of-fields views of the composite registers, as the spec's
`decode` / `encode` contract describes them: `decode` reads every getter of
the wrapped byte, `encode` applies every setter to a zeroed register.
-/

/-- The fields of `Ilimit`: positive and negative current limit. -/
structure IlimitFields where
  pos : PosLimit
  neg : NegLimit
deriving DecidableEq, Fintype

/-- Decode an `Ilimit` byte into its fields (both getters). -/
def Ilimit.decode (x : Ilimit) : IlimitFields :=
  ⟨x.softstart, x.timeout⟩

/-- Encode `Ilimit` fields into a register byte (both setters on a zeroed
register). -/
def IlimitFields.encode (f : IlimitFields) : Ilimit :=
  ((Ilimit.mk 0).set_softstart f.pos).set_timeout f.neg

/-- The fields of `Ctrl`: soft start, timeout, fader enable, PWM enable. -/
structure CtrlFields where
  softstart : SoftStart
  timeout : Timeout
  mfe : Bool
  pwm : Bool
deriving DecidableEq, Fintype

/-- Decode a `Ctrl` byte into its fields (all four getters). -/
def Ctrl.decode (c : Ctrl) : CtrlFields :=
  ⟨c.softstart, c.timeout, c.mfe, c.pwm⟩

/-- Encode `Ctrl` fields into a register byte (all four setters on a zeroed
register). -/
def CtrlFields.encode (f : CtrlFields) : Ctrl :=
  ((((Ctrl.mk 0).set_softstart f.softstart).set_timeout f.timeout).set_mfe
    f.mfe).set_pwm f.pwm

/-!  Helper lemmas about the 10-bit channel masks of `write_bank`.  -/

/-- The low-byte mask only sees the low 10 bits of a channel value. -/
theorem low_byte_mod (x : Nat) : x % 1024 &&& 0xFF = x &&& 0xFF := by
  have h1 := Nat.and_pow_two_sub_one_eq_mod x 8
  have h2 := Nat.and_pow_two_sub_one_eq_mod (x % 1024) 8
  norm_num at h1 h2
  rw [h1, h2]

/-- The 2-bit high mask only sees the low 10 bits of a channel value. -/
theorem high_bits_mod (x : Nat) : (x % 1024) >>> 8 &&& 0x03 = x >>> 8 &&& 0x03 := by
  have h1 := Nat.and_pow_two_sub_one_eq_mod (x >>> 8) 2
  have h2 := Nat.and_pow_two_sub_one_eq_mod ((x % 1024) >>> 8) 2
  norm_num at h1 h2
  rw [h1, h2, Nat.shiftRight_eq_div_pow, Nat.shiftRight_eq_div_pow]
  norm_num
  omega

/-!
## Claims

One theorem per claim of the specification, with counterexamples and
witnesses where the claim needed amending.
-/

/-- Claim C1, counterexample: the Control-register byte round-trip
`encode(decode(b)) == b` fails at `b = 0x40`: bit 6 belongs to no `Ctrl`
field, so decoding to fields and re-encoding clears it, yielding 0x00. -/
theorem ctrl_byte_roundtrip_cex :
    CtrlFields.encode (Ctrl.decode (Ctrl.mk 0x40)) ≠ Ctrl.mk 0x40 ∧
    CtrlFields.encode (Ctrl.decode (Ctrl.mk 0x40)) = Ctrl.mk 0x00 := by
  decide

set_option maxRecDepth 4000 in
/-- Claim C1, amended: `decode(encode(f)) == f` holds for every `Ilimit`
field struct (all 4×4 combinations of positive and negative limit), and
`encode(decode(b)) == b` holds for every Control byte whose unused bits 6
and 7 are clear, i.e. `b < 0x40`. -/
theorem codec_roundtrip_amended :
    (∀ f : IlimitFields, (IlimitFields.encode f).decode = f) ∧
    (∀ b : Nat, b < 0x40 → CtrlFields.encode (Ctrl.decode (Ctrl.mk b)) = Ctrl.mk b) := by
  constructor
  · decide
  · decide

/-- Witness for the amended C1 round-trip at the largest in-range byte 0x3F. -/
theorem codec_roundtrip_amended_witness :
    (0x3F : Nat) < 0x40 ∧
    CtrlFields.encode (Ctrl.decode (Ctrl.mk 0x3F)) = Ctrl.mk 0x3F :=
  ⟨by decide, codec_roundtrip_amended.2 0x3F (by decide)⟩

/-- Claim C2, counterexample: `select_bank(Bank0)` does not send
`[0x00, 0x01]`; the source maps `B0` to the selector value 0 and sends
`[0x00, 0x00]` (observed on a logging transport). -/
theorem select_bank_cex :
    ((LM3549.new (traceBus Unit 0)).select_bank Bank.B0 []).1 ≠
      [Tx.wr 0x36 [0x00, 0x01]] ∧
    ((LM3549.new (traceBus Unit 0)).select_bank Bank.B0 []).1 =
      [Tx.wr 0x36 [0x00, 0x00]] := by
  decide

/-- Claim C2, amended: on any transport, `select_bank` is exactly the single
two-byte write of the `BankSel` address 0x00 followed by the selector value
0, 1 or 2, sent to the driver's device address. -/
theorem select_bank_amended :
    ∀ (σ ε : Type) (B : I2CBus σ ε) (a : Nat) (s : σ),
    (LM3549.mk B a).select_bank Bank.B0 s = B.write s a [0x00, 0x00] ∧
    (LM3549.mk B a).select_bank Bank.B1 s = B.write s a [0x00, 0x01] ∧
    (LM3549.mk B a).select_bank Bank.B2 s = B.write s a [0x00, 0x02] :=
  fun _ _ _ _ _ => ⟨rfl, rfl, rfl⟩

/-- Claim C3, code bug: at raw fault byte 0x00 every fault-bearing bit is
clear (short = None, uvlo = false, …), yet the source's `is_ok` returns
`false` and `is_err` returns `true` — `is_err` is written `self.0 == 0x00`,
the inversion of its own doc comment; dually a byte with a fault bit set
(0x04, uvlo) reports `is_ok = true`. -/
theorem fault_is_ok_inverted :
    (Fault.mk 0x00).short = OpenShort.None ∧
    (Fault.mk 0x00).open_ = OpenShort.None ∧
    (Fault.mk 0x00).uvlo = false ∧
    (Fault.mk 0x00).is_ok = false ∧
    (Fault.mk 0x00).is_err = true ∧
    (Fault.mk 0x04).uvlo = true ∧
    (Fault.mk 0x04).is_ok = true := by
  decide

/-- Claim C4: on any transport, `write_bank(Bank0, 1023, 0, 512)` is exactly
the single seven-byte write `[0x01, 0xFF, 0x03, 0x00, 0x00, 0x00, 0x02]`
to the driver's device address. -/
theorem write_bank_example_tx :
    ∀ (σ ε : Type) (B : I2CBus σ ε) (a : Nat) (s : σ),
    (LM3549.mk B a).write_bank Bank.B0 1023 0 512 s =
      B.write s a [0x01, 0xFF, 0x03, 0x00, 0x00, 0x00, 0x02] :=
  fun _ _ _ _ _ => rfl

/-- Claim C5, counterexample: `OpenShort`'s raw-code decoder maps the unnamed
code 4 to `None`, the lowest-valued member, not to the highest-valued member
`Blue` (discriminant 3, maximal among the declared discriminants). -/
theorem openshort_fallback_cex :
    OpenShort.fromU8 4 = OpenShort.None ∧
    OpenShort.fromU8 4 ≠ OpenShort.Blue ∧
    (∀ m : OpenShort, m.disc ≤ OpenShort.Blue.disc) := by
  decide

/-- Claim C5, amended: every raw-code decoder is total; `PosLimit`,
`NegLimit`, `Timeout` and `SoftStart` map every code not explicitly named
(every `x ≥ 4`; code 3 reaches the same member through the catch-all) to the
highest-valued member, but `OpenShort` maps unnamed codes to `None`, its
lowest-valued member. -/
theorem from_u8_fallback_amended :
    (∀ x : Nat, 4 ≤ x → PosLimit.fromU8 x = PosLimit.MA2000) ∧
    (∀ x : Nat, 4 ≤ x → NegLimit.fromU8 x = NegLimit.MA2200) ∧
    (∀ x : Nat, 4 ≤ x → Timeout.fromU8 x = Timeout.MS1000) ∧
    (∀ x : Nat, 4 ≤ x → SoftStart.fromU8 x = SoftStart.MS2000) ∧
    (∀ x : Nat, 4 ≤ x → OpenShort.fromU8 x = OpenShort.None) := by
  refine ⟨?_, ?_, ?_, ?_, ?_⟩ <;> intro x hx
  all_goals obtain ⟨n, rfl⟩ : ∃ n, x = n + 4 := ⟨x - 4, by omega⟩
  all_goals rfl

/-- Witness for the amended C5 fallback at the unnamed code 9. -/
theorem from_u8_fallback_witness :
    (4 : Nat) ≤ 9 ∧
    PosLimit.fromU8 9 = PosLimit.MA2000 ∧
    NegLimit.fromU8 9 = NegLimit.MA2200 ∧
    Timeout.fromU8 9 = Timeout.MS1000 ∧
    SoftStart.fromU8 9 = SoftStart.MS2000 ∧
    OpenShort.fromU8 9 = OpenShort.None :=
  ⟨by decide,
   from_u8_fallback_amended.1 9 (by decide),
   from_u8_fallback_amended.2.1 9 (by decide),
   from_u8_fallback_amended.2.2.1 9 (by decide),
   from_u8_fallback_amended.2.2.2.1 9 (by decide),
   from_u8_fallback_amended.2.2.2.2 9 (by decide)⟩

/-- Claim C6: on a logging transport, `read(register)` performs exactly a
one-byte write of the register address followed by a one-byte read, in that
order, on the driver's device address, and returns the byte the transport
supplied; the `Fault` register's address is 0x17. -/
theorem read_issues_write_then_read :
    ∀ (ε : Type) (v a : Nat) (reg : Register) (s : List Tx),
    (LM3549.mk (traceBus ε v) a).read reg s =
      (s ++ [Tx.wr a [reg.addr], Tx.rd a 1], Except.ok v) ∧
    Register.Fault.addr = 0x17 := by
  intro ε v a reg s
  refine ⟨?_, rfl⟩
  show ((s ++ [Tx.wr a [reg.addr]]) ++ [Tx.rd a 1], Except.ok v) = _
  rw [List.append_assoc]
  rfl

/-- Claim C7: every bus-touching operation propagates a transport failure
verbatim.  Part one: if the write primitive fails at the current state, each
operation returns exactly that error and the transport's post-failure state
— in particular `read` returns the state reached after the failed address
write, for every read primitive whatsoever, so the subsequent read
transaction is never issued.  Part two: when the address write succeeds and
the read primitive fails, `read` returns that error verbatim. -/
theorem ops_propagate_error :
    ∀ (σ ε : Type) (B : I2CBus σ ε) (a : Nat) (s s₁ : σ) (e : ε),
    ((∀ bytes, B.write s a bytes = (s₁, Except.error e)) →
      (∀ reg, (LM3549.mk B a).read reg s = (s₁, Except.error e)) ∧
      (LM3549.mk B a).get_fault s = (s₁, Except.error e) ∧
      (∀ reg v, (LM3549.mk B a).write reg v s = (s₁, Except.error e)) ∧
      (∀ bank r g b, (LM3549.mk B a).write_bank bank r g b s = (s₁, Except.error e)) ∧
      (∀ bank, (LM3549.mk B a).select_bank bank s = (s₁, Except.error e)) ∧
      (∀ v, (LM3549.mk B a).set_fader v s = (s₁, Except.error e)) ∧
      (∀ c, (LM3549.mk B a).set_ctrl c s = (s₁, Except.error e)) ∧
      (∀ l, (LM3549.mk B a).set_ilimit l s = (s₁, Except.error e)) ∧
      (∀ m, (LM3549.mk B a).set_fault_mask m s = (s₁, Except.error e))) ∧
    (∀ (reg : Register) (s₂ : σ),
      B.write s a [reg.addr] = (s₂, Except.ok ()) →
      B.read s₂ a 1 = (s₁, Except.error e) →
      (LM3549.mk B a).read reg s = (s₁, Except.error e)) := by
  intro σ ε B a s s₁ e
  constructor
  · intro h
    refine ⟨?_, ?_, ?_, ?_, ?_, ?_, ?_, ?_, ?_⟩
    · intro reg; simp [LM3549.read, h]
    · simp [LM3549.get_fault, LM3549.read, h]
    · intro reg v; simp [LM3549.write, h]
    · intro bank r g b; simp [LM3549.write_bank, h]
    · intro bank; cases bank <;> simp [LM3549.select_bank, LM3549.write, h]
    · intro v; simp [LM3549.set_fader, LM3549.write, h]
    · intro c; simp [LM3549.set_ctrl, LM3549.write, h]
    · intro l; simp [LM3549.set_ilimit, LM3549.write, h]
    · intro m; simp [LM3549.set_fault_mask, LM3549.write, h]
  · intro reg s₂ hw hr
    simp [LM3549.read, hw, hr]

/-- Witness for C7 on concrete transports: a transport failing on every
write makes each operation return its error unchanged; one whose read fails
after a successful address write makes `read` return that error after
exactly the two expected transactions. -/
theorem ops_propagate_error_witness :
    (LM3549.mk (failBus 7) 0x36).read Register.Ctrl () = ((), Except.error 7) ∧
    (LM3549.mk (failBus 7) 0x36).get_fault () = ((), Except.error 7) ∧
    (LM3549.mk (failBus 7) 0x36).write Register.Fader 5 () = ((), Except.error 7) ∧
    (LM3549.mk (failBus 7) 0x36).write_bank Bank.B1 1 2 3 () = ((), Except.error 7) ∧
    (LM3549.mk (failBus 7) 0x36).select_bank Bank.B2 () = ((), Except.error 7) ∧
    (LM3549.mk (failBus 7) 0x36).set_fader 9 () = ((), Except.error 7) ∧
    (LM3549.mk (failBus 7) 0x36).set_ctrl Ctrl.default () = ((), Except.error 7) ∧
    (LM3549.mk (failBus 7) 0x36).set_ilimit Ilimit.default () = ((), Except.error 7) ∧
    (LM3549.mk (failBus 7) 0x36).set_fault_mask FaultMask.default () = ((), Except.error 7) ∧
    (LM3549.mk (readFailBus 9) 0x36).read Register.Fault [] =
      ([Tx.wr 0x36 [0x17], Tx.rd 0x36 1], Except.error 9) := by
  obtain ⟨h1, h2⟩ := ops_propagate_error Unit Nat (failBus 7) 0x36 () () 7
  obtain ⟨hr, hgf, hw, hwb, hsb, hf, hc, hi, hm⟩ := h1 (fun _ => rfl)
  refine ⟨hr _, hgf, hw _ _, hwb _ _ _ _, hsb _, hf _, hc _, hi _, hm _, ?_⟩
  exact (ops_propagate_error (List Tx) Nat (readFailBus 9) 0x36 []
    [Tx.wr 0x36 [0x17], Tx.rd 0x36 1] 9).2 Register.Fault
    [Tx.wr 0x36 [0x17]] rfl rfl

/-- Claim C8: `Ctrl::default()` wraps raw 0x00; `Ilimit::default()` wraps
raw 0x11, decoding to positive limit 1000 mA and negative limit 1100 mA;
the zero fault byte decodes to short = None, open = None, and all three
flag bits false. -/
theorem defaults_and_zero_fault :
    Ctrl.default.raw = 0x00 ∧
    Ilimit.default.raw = 0x11 ∧
    Ilimit.default.softstart = PosLimit.MA1000 ∧
    Ilimit.default.timeout = NegLimit.MA1100 ∧
    (Fault.mk 0x00).short = OpenShort.None ∧
    (Fault.mk 0x00).open_ = OpenShort.None ∧
    (Fault.mk 0x00).uvlo = false ∧
    (Fault.mk 0x00).tsd = false ∧
    (Fault.mk 0x00).ocp = false := by
  decide

/-- Claim C9: for every bank and all 16-bit channel values, `write_bank`
sends the same transaction as with the values reduced mod 1024 — bits above
bit 9 are discarded by the `& 0xFF` and `(>> 8) & 0x03` masks. -/
theorem write_bank_masks_to_10_bits :
    ∀ (σ ε : Type) (B : I2CBus σ ε) (a : Nat) (s : σ) (bank : Bank) (r g b : Nat),
    r < 65536 → g < 65536 → b < 65536 →
    (LM3549.mk B a).write_bank bank r g b s =
      (LM3549.mk B a).write_bank bank (r % 1024) (g % 1024) (b % 1024) s := by
  intro σ ε B a s bank r g b _ _ _
  simp only [LM3549.write_bank, low_byte_mod, high_bits_mod]

/-- Witness for C9 at channel values 5000, 0 and 65535. -/
theorem write_bank_masks_witness :
    (5000 : Nat) < 65536 ∧ (0 : Nat) < 65536 ∧ (65535 : Nat) < 65536 ∧
    (LM3549.mk (traceBus Unit 0) 0x36).write_bank Bank.B2 5000 0 65535 [] =
      (LM3549.mk (traceBus Unit 0) 0x36).write_bank Bank.B2
        (5000 % 1024) (0 % 1024) (65535 % 1024) [] :=
  ⟨by decide, by decide, by decide,
   write_bank_masks_to_10_bits (List Tx) Unit (traceBus Unit 0) 0x36 []
     Bank.B2 5000 0 65535 (by decide) (by decide) (by decide)⟩

set_option maxRecDepth 100000 in
/-- Claim C10: each `Ctrl` setter changes only its own field's bit range in
the wrapped byte: for every byte and every new field value, all three
other getters return their prior values and every bit outside the setter's
range is unchanged. -/
theorem ctrl_setters_frame :
    ∀ c : Nat, c < 256 →
      (∀ v : SoftStart,
        ((Ctrl.mk c).set_softstart v).timeout = (Ctrl.mk c).timeout ∧
        ((Ctrl.mk c).set_softstart v).mfe = (Ctrl.mk c).mfe ∧
        ((Ctrl.mk c).set_softstart v).pwm = (Ctrl.mk c).pwm ∧
        (∀ i, i < 8 → i ≠ 4 → i ≠ 5 →
          ((Ctrl.mk c).set_softstart v).raw.testBit i = c.testBit i)) ∧
      (∀ v : Timeout,
        ((Ctrl.mk c).set_timeout v).softstart = (Ctrl.mk c).softstart ∧
        ((Ctrl.mk c).set_timeout v).mfe = (Ctrl.mk c).mfe ∧
        ((Ctrl.mk c).set_timeout v).pwm = (Ctrl.mk c).pwm ∧
        (∀ i, i < 8 → i ≠ 2 → i ≠ 3 →
          ((Ctrl.mk c).set_timeout v).raw.testBit i = c.testBit i)) ∧
      (∀ v : Bool,
        ((Ctrl.mk c).set_mfe v).softstart = (Ctrl.mk c).softstart ∧
        ((Ctrl.mk c).set_mfe v).timeout = (Ctrl.mk c).timeout ∧
        ((Ctrl.mk c).set_mfe v).pwm = (Ctrl.mk c).pwm ∧
        (∀ i, i < 8 → i ≠ 1 →
          ((Ctrl.mk c).set_mfe v).raw.testBit i = c.testBit i)) ∧
      (∀ v : Bool,
        ((Ctrl.mk c).set_pwm v).softstart = (Ctrl.mk c).softstart ∧
        ((Ctrl.mk c).set_pwm v).timeout = (Ctrl.mk c).timeout ∧
        ((Ctrl.mk c).set_pwm v).mfe = (Ctrl.mk c).mfe ∧
        (∀ i, i < 8 → i ≠ 0 →
          ((Ctrl.mk c).set_pwm v).raw.testBit i = c.testBit i)) := by
  have h1 : ∀ c : Nat, c < 256 →
      ∀ v : SoftStart,
        ((Ctrl.mk c).set_softstart v).timeout = (Ctrl.mk c).timeout ∧
        ((Ctrl.mk c).set_softstart v).mfe = (Ctrl.mk c).mfe ∧
        ((Ctrl.mk c).set_softstart v).pwm = (Ctrl.mk c).pwm ∧
        (∀ i, i < 8 → i ≠ 4 → i ≠ 5 →
          ((Ctrl.mk c).set_softstart v).raw.testBit i = c.testBit i) := by
    decide
  have h2 : ∀ c : Nat, c < 256 →
      ∀ v : Timeout,
        ((Ctrl.mk c).set_timeout v).softstart = (Ctrl.mk c).softstart ∧
        ((Ctrl.mk c).set_timeout v).mfe = (Ctrl.mk c).mfe ∧
        ((Ctrl.mk c).set_timeout v).pwm = (Ctrl.mk c).pwm ∧
        (∀ i, i < 8 → i ≠ 2 → i ≠ 3 →
          ((Ctrl.mk c).set_timeout v).raw.testBit i = c.testBit i) := by
    decide
  have h3 : ∀ c : Nat, c < 256 →
      ∀ v : Bool,
        ((Ctrl.mk c).set_mfe v).softstart = (Ctrl.mk c).softstart ∧
        ((Ctrl.mk c).set_mfe v).timeout = (Ctrl.mk c).timeout ∧
        ((Ctrl.mk c).set_mfe v).pwm = (Ctrl.mk c).pwm ∧
        (∀ i, i < 8 → i ≠ 1 →
          ((Ctrl.mk c).set_mfe v).raw.testBit i = c.testBit i) := by
    decide
  have h4 : ∀ c : Nat, c < 256 →
      ∀ v : Bool,
        ((Ctrl.mk c).set_pwm v).softstart = (Ctrl.mk c).softstart ∧
        ((Ctrl.mk c).set_pwm v).timeout = (Ctrl.mk c).timeout ∧
        ((Ctrl.mk c).set_pwm v).mfe = (Ctrl.mk c).mfe ∧
        (∀ i, i < 8 → i ≠ 0 →
          ((Ctrl.mk c).set_pwm v).raw.testBit i = c.testBit i) := by
    decide
  exact fun c hc => ⟨h1 c hc, h2 c hc, h3 c hc, h4 c hc⟩

/-- Witness for C10 at byte 0xAA, setter `set_softstart`, and bit 7. -/
theorem ctrl_setters_frame_witness :
    ((Ctrl.mk 0xAA).set_softstart SoftStart.MS2000).timeout =
      (Ctrl.mk 0xAA).timeout ∧
    ((Ctrl.mk 0xAA).set_softstart SoftStart.MS2000).raw.testBit 7 =
      (0xAA : Nat).testBit 7 := by
  have h := ctrl_setters_frame 0xAA (by decide)
  exact ⟨(h.1 SoftStart.MS2000).1,
    (h.1 SoftStart.MS2000).2.2.2 7 (by decide) (by decide) (by decide)⟩

end LM3549Spec
